import Mathlib

/-!
# PowerCord: the host side of an iframe message channel

A shallow embedding of `src/lib/powercord.js`.

* JavaScript values that can cross `postMessage` are the inductive `JSValue`.
* Functions supplied by the host application (event callbacks, `onInitialized`)
  are references compared by identity, `Callback`.  Invoking one is recorded as
  an `Effect.call`; whether the invocation returns or throws is given by the
  surroundings `Env`, and an exception thrown by a callback leaves the method
  that invoked it.
* The platform expression `new URL(s).host` is not defined by the class; its
  value is a field of `Env`, and the general theorems hold for every `Env`.
* Every method returns the effects it performed, in order, together with
  either its result or the exception it threw.
* The `{}` object with its `Object.prototype` keys and the DOM calls of
  `createInstance` are modelled next to the method that uses them.
-/

namespace Powercord

/-! ## JavaScript values and exceptions -/

/-- Values that the structured-clone transport of `postMessage` can carry. -/
inductive JSValue where
  | undefined
  | null
  | bool (b : Bool)
  | number (n : Int)
  | string (s : String)
  | array (items : List JSValue)
  | object (props : List (String × JSValue))

/-- Exceptions: those raised by the language or the platform, and `thrown` for
what a host function throws. -/
inductive JSError where
  | typeError (msg : String)
  | syntaxError (msg : String)
  | notFoundError (msg : String)
  | thrown (msg : String)
  deriving DecidableEq, Repr

/-- A host function, identified by reference. -/
abbrev Callback := Nat

/-- The result of the `typeof` operator on a transportable value. -/
def typeOf : JSValue → String
  | .undefined => "undefined"
  | .null => "object"
  | .bool _ => "boolean"
  | .number _ => "number"
  | .string _ => "string"
  | .array _ => "object"
  | .object _ => "object"

/-- Strict equality `v === s` against a string literal. -/
def strictEqString : JSValue → String → Bool
  | .string t, s => t == s
  | _, _ => false

/-- Property read `v.key` for a key that no built-in prototype defines (the
class only reads `eventName` and `data`).  Reading a property of `null` or
`undefined` throws; primitives and arrays have no such property. -/
def getField (v : JSValue) (key : String) : Except JSError JSValue :=
  match v with
  | .undefined =>
      .error (.typeError ("Cannot read properties of undefined (reading " ++ key ++ ")"))
  | .null =>
      .error (.typeError ("Cannot read properties of null (reading " ++ key ++ ")"))
  | .object props => .ok ((props.lookup key).getD .undefined)
  | _ => .ok .undefined

/-! ## Effects -/

/-- The argument a host function is invoked with. -/
inductive Arg where
  | value (v : JSValue)
  | channel
  | element (id : Nat)

/-- What a method does to the outside world, in program order. -/
inductive Effect where
  | call (fn : Callback) (arg : Arg)
  | consoleLog (args : List JSValue)
  | consoleError (args : List JSValue)
  | postMessage (target : Nat) (payload : JSValue) (targetOrigin : String)
  | windowAddEventListener (type : String)

/-- What the class calls into and does not define itself.  `urlHost s` is the
value of the platform expression `new URL(s).host`, `none` when the `URL`
constructor throws its `TypeError`.  `throws fn arg` is what invoking the host
function `fn` with the argument `arg` does: `none` when it returns, `some e`
when it throws `e`. -/
structure Env where
  urlHost : String → Option String
  throws : Callback → Arg → Option JSError

/-- The effects of a method call and how it ended. -/
structure Run (α : Type) where
  effects : List Effect
  outcome : Except JSError α

/-- Whether an effect is the invocation of a host function: a registered event
handler or `onInitialized`. -/
def Effect.isCall : Effect → Bool
  | .call _ _ => true
  | _ => false

/-- Whether an effect is a message sent to a window. -/
def Effect.isPost : Effect → Bool
  | .postMessage _ _ _ => true
  | _ => false

/-- The host functions invoked in a run, paired with their arguments. -/
def calls : List Effect → List (Callback × Arg)
  | [] => []
  | .call fn arg :: es => (fn, arg) :: calls es
  | _ :: es => calls es

/-- Whether a run ended without an exception. -/
def Run.returns {α : Type} (r : Run α) : Bool :=
  match r.outcome with
  | .ok _ => true
  | .error _ => false

/-! ## The channel object -/

/-- The iframe element built by `createInstance`. -/
structure IFrame where
  id : Nat
  sandbox : String
  src : String
  styleAttr : String
  style : List (String × String)

/-- The fields of a `PowerCord` instance.  `eventHandlers` holds the own
properties of the object created by `{}`; `iframe` and `parentElement` are
`none` while the JavaScript property is `undefined`. -/
structure PowerCord where
  domain : String
  debug : Bool
  eventHandlers : List (String × List Callback)
  errorHandlers : List Callback
  host : String
  onInitialized : Option Callback
  iframe : Option IFrame
  parentElement : Option Nat

/-- The options object of the constructor; `none` is an omitted property. -/
structure Options where
  debug : Option Bool
  onInitialized : Option Callback

/-- Body of `constructor(domain, { debug = false, onInitialized } = {})`.
A missing options argument is the empty object.  (The docstring of the
constructor documents `domain` and an optional `debug` only; the code takes
the options object and binds `onInitialized` unconditionally.) -/
def constructor (env : Env) (domain : String) (options : Option Options) : Run PowerCord :=
  let opts := options.getD { debug := none, onInitialized := none }
  let debug := opts.debug.getD false
  match env.urlHost domain with
  | none => { effects := [], outcome := .error (.typeError "Invalid URL") }
  | some host =>
    match opts.onInitialized with
    | none =>
      { effects := []
        outcome := .error (.typeError "Cannot read properties of undefined (reading bind)") }
    | some f =>
      { effects := [.windowAddEventListener "message"]
        outcome := .ok {
          domain := domain
          debug := debug
          eventHandlers := []
          errorHandlers := []
          host := host
          onInitialized := some f
          iframe := none
          parentElement := none } }

/-! ## The handler registry: a plain object used as a map -/

/-- Property names every plain object inherits from `Object.prototype`. -/
def objectPrototypeKeys : List String :=
  ["constructor", "__defineGetter__", "__defineSetter__", "hasOwnProperty",
   "__lookupGetter__", "__lookupSetter__", "isPrototypeOf", "propertyIsEnumerable",
   "toString", "valueOf", "__proto__", "toLocaleString"]

/-- What `this.eventHandlers[key]` evaluates to: an array stored by the class,
a value inherited from `Object.prototype` (truthy, not an array), or
`undefined`. -/
inductive Lookup where
  | array (handlers : List Callback)
  | inherited
  | undefined
  deriving DecidableEq, Repr

/-- The read `this.eventHandlers[key]`: own properties first, then the
prototype. -/
def getHandlers (eventHandlers : List (String × List Callback)) (key : String) : Lookup :=
  match eventHandlers.lookup key with
  | some l => .array l
  | none => if key ∈ objectPrototypeKeys then .inherited else .undefined

/-- The write `this.eventHandlers[key] = value`: an existing own property is
updated in place, a new one is added at the end. -/
def setHandlers (eventHandlers : List (String × List Callback)) (key : String)
    (value : List Callback) : List (String × List Callback) :=
  match eventHandlers with
  | [] => [(key, value)]
  | (k, v) :: rest =>
    if k == key then (k, value) :: rest else (k, v) :: setHandlers rest key value

/-- The callbacks currently registered under an event name. -/
def registered (ch : PowerCord) (eventName : String) : List Callback :=
  (ch.eventHandlers.lookup eventName).getD []

/-- Method `addEventListener(eventName, callback)`. -/
def addEventListener (ch : PowerCord) (eventName : String) (callback : Callback) :
    Except JSError PowerCord :=
  match getHandlers ch.eventHandlers eventName with
  | .array l =>
    .ok { ch with eventHandlers := setHandlers ch.eventHandlers eventName (l ++ [callback]) }
  | .inherited =>
    .error (.typeError "this.eventHandlers[eventName].push is not a function")
  | .undefined =>
    .ok { ch with eventHandlers := setHandlers ch.eventHandlers eventName [callback] }

/-- Method `removeEventListener(eventName, callback)`. -/
def removeEventListener (ch : PowerCord) (eventName : String) (callback : Callback) :
    Except JSError PowerCord :=
  match getHandlers ch.eventHandlers eventName with
  | .array l =>
    .ok { ch with
      eventHandlers := setHandlers ch.eventHandlers eventName (l.filter (fun cb => cb != callback)) }
  | .inherited =>
    .error (.typeError "this.eventHandlers[eventName].filter is not a function")
  | .undefined =>
    .error (.typeError "Cannot read properties of undefined (reading filter)")

/-! ## Inbound messages -/

/-- The two properties of a `message` event that the listener reads. -/
structure MessageEvent where
  origin : String
  data : JSValue

/-- The value `event.data.data` handed to each handler. -/
def payloadData (data : JSValue) : JSValue :=
  match getField data "data" with
  | .ok v => v
  | .error _ => .undefined

/-- The call `handlers.forEach((handler) => handler(arg))`: the handlers are
invoked in order; an exception thrown by one of them leaves the loop, and the
handlers after it are not invoked.  The loop runs over the array as it was
when the loop started: `forEach` reads the length once, so a handler pushed by
`addEventListener` during the loop is not visited, and `removeEventListener`
stores a new array and leaves the one being iterated alone. -/
def forEachCall (env : Env) (arg : Arg) : List Callback → Run Unit
  | [] => { effects := [], outcome := .ok () }
  | handler :: rest =>
    match env.throws handler arg with
    | some e => { effects := [.call handler arg], outcome := .error e }
    | none =>
      { effects := .call handler arg :: (forEachCall env arg rest).effects
        outcome := (forEachCall env arg rest).outcome }

/-- The dispatch at the end of `messageListener`: the lookup of the event name
and the `forEach` over the array found. -/
def dispatch (env : Env) (ch : PowerCord) (eventName : String) (data : JSValue) : Run Unit :=
  match getHandlers ch.eventHandlers eventName with
  | .undefined => { effects := [], outcome := .ok () }
  | .inherited =>
    { effects := []
      outcome := .error (.typeError "this.eventHandlers[event.data.eventName].forEach is not a function") }
  | .array l => forEachCall env (.value (payloadData data)) l

/-- Method `messageListener(event)`. -/
def messageListener (env : Env) (ch : PowerCord) (event : MessageEvent) : Run Unit :=
  match env.urlHost event.origin with
  | none => { effects := [], outcome := .error (.typeError "Invalid URL") }
  | some eventHost =>
    if eventHost ≠ ch.host then
      { effects :=
          if ch.debug then
            [.consoleLog [.string "Ignored message from domain ", .string event.origin,
              .string ch.domain]]
          else []
        outcome := .ok () }
    else
      match strictEqString event.data "handshake", ch.onInitialized with
      | true, some f =>
        { effects := [.call f .channel]
          outcome :=
            match env.throws f .channel with
            | none => .ok ()
            | some e => .error e }
      | _, _ =>
        let reject : Run Unit :=
          { effects :=
              if ch.debug then
                [.consoleLog [.string "Ignored message from domain ", .string event.origin,
                  .string ". Unexpected payload :", event.data]]
              else []
            outcome := .ok () }
        if typeOf event.data ≠ "object" then reject
        else
          match getField event.data "eventName" with
          | .error e => { effects := [], outcome := .error e }
          | .ok (.string eventName) => dispatch env ch eventName event.data
          | .ok _ => reject

/-- The channel receives a sequence of messages, one after the other; the
effects are collected in order.  An exception in one delivery does not stop
the platform from delivering the next message. -/
def receiveAll (env : Env) (ch : PowerCord) : List MessageEvent → List Effect
  | [] => []
  | ev :: evs => (messageListener env ch ev).effects ++ receiveAll env ch evs

/-- The handlers a `forEach` reaches: those before the first one that throws,
and that one. -/
def reached (env : Env) (arg : Arg) : List Callback → List Callback
  | [] => []
  | handler :: rest =>
    match env.throws handler arg with
    | some _ => [handler]
    | none => handler :: reached env arg rest

/-- Successive `addEventListener` calls, stopping at the first one that
throws. -/
def registerAll (ch : PowerCord) : List (String × Callback) → Except JSError PowerCord
  | [] => .ok ch
  | (eventName, callback) :: rest =>
    match addEventListener ch eventName callback with
    | .ok ch1 => registerAll ch1 rest
    | .error e => .error e

/-! ## The document and the embedded frame -/

/-- The part of the host document that `createInstance` and `emit` touch.
Elements are identified by number; `children` lists the (parent, child) pairs
in the order they were appended, `connected` the elements that are in the
document tree, `nextId` the identity `createElement` hands out next. -/
structure Document where
  body : Option Nat
  querySelector : String → Except JSError (Option Nat)
  nextId : Nat
  children : List (Nat × Nat)
  connected : List Nat

/-- The call `parent.appendChild(child)` for a newly created child. -/
def appendChild (doc : Document) (parent child : Nat) : Document :=
  { doc with
    children := doc.children ++ [(parent, child)]
    connected := if parent ∈ doc.connected then doc.connected ++ [child] else doc.connected }

/-- The call `parent.removeChild(child)`; it throws when `child` is not a child
of `parent`. -/
def removeChild (doc : Document) (parent child : Nat) : Except JSError Document :=
  if (parent, child) ∈ doc.children then
    .ok { doc with
      children := doc.children.filter (fun e => e != (parent, child))
      connected := doc.connected.filter (fun e => e != child) }
  else .error (.notFoundError "The node to be removed is not a child of this node.")

/-- The property `iframe.contentWindow`: the frame has a window while it is in
the document tree.  The window is identified with its frame. -/
def contentWindow (doc : Document) (iframe : IFrame) : Option Nat :=
  if iframe.id ∈ doc.connected then some iframe.id else none

/-- The `selector` option of `createInstance` when it is truthy. -/
inductive Selector where
  | element (id : Nat)
  | query (selector : String)

/-- The options object of `createInstance`; `selector := none` is the default
`false`, `style := none` an omitted style. -/
structure InstanceOptions where
  selector : Option Selector
  hidden : Bool
  style : Option (List (String × String))

/-- The constant `hiddenStyle`. -/
def hiddenStyle : String := "pointer-events:none;opacity:0.00001;z-index:-1;"

/-- The template literal assigned to the `style` attribute. -/
def instanceStyle (hidden : Bool) : String :=
  "\n      width: \"100%\";\n      height: \"100%\";\n      position: fixed;\n      margin: 0px;" ++
  "\n      border: none;\n      padding: 0px;\n      z-index: 99;" ++
  "\n      transition: ease-in-out 500ms;\n      " ++
  (if hidden then hiddenStyle else "") ++ "\n      "

/-- Method `applyInstanceStyle(style)`. -/
def applyInstanceStyle (ch : PowerCord) (style : Option (List (String × String))) : PowerCord :=
  match ch.iframe, style with
  | some f, some st =>
    { ch with iframe := some { f with style := st.foldl (fun acc kv => acc ++ [kv]) f.style } }
  | _, _ => ch

/-- What `createInstance` leaves behind: the channel, the document, and the
returned element or the exception. -/
structure InstanceResult where
  self : PowerCord
  document : Document
  outcome : Except JSError IFrame

/-- The head of `createInstance`: when both `this.iframe` and
`this.parentElement` are set, the old frame is removed from that parent, and a
failure of the removal is swallowed. -/
def detachPrevious (ch : PowerCord) (doc : Document) : Document :=
  match ch.iframe, ch.parentElement with
  | some old, some parent =>
    match removeChild doc parent old.id with
    | .ok d => d
    | .error _ => doc
  | _, _ => doc

/-- The element `createInstance` creates, with the attributes it sets. -/
def newIframe (ch : PowerCord) (id : Nat) (hidden : Bool) : IFrame :=
  { id := id
    sandbox := "allow-scripts allow-same-origin allow-presentation"
    src := ch.domain
    styleAttr := instanceStyle hidden
    style := [] }

/-- The attachment point: the element given, the element the selector string
finds, or the body when the selector is falsy. -/
def resolveParent (doc : Document) (selector : Option Selector) : Except JSError (Option Nat) :=
  match selector with
  | none => .ok doc.body
  | some (.element e) => .ok (some e)
  | some (.query q) => if q = "" then .ok doc.body else doc.querySelector q

/-- The tail of `createInstance`: the attachment point is resolved and the new
frame appended to it; a `null` attachment point makes `appendChild` throw. -/
def attach (ch : PowerCord) (doc : Document) (iframe : IFrame) (selector : Option Selector) :
    InstanceResult :=
  match resolveParent doc selector with
  | .error e => { self := ch, document := doc, outcome := .error e }
  | .ok none =>
    { self := ch, document := doc
      outcome := .error (.typeError "Cannot read properties of null (reading appendChild)") }
  | .ok (some parentElement) =>
    { self := ch
      document := appendChild doc parentElement iframe.id
      outcome := .ok ((ch.iframe).getD iframe) }

/-- Method `createInstance({ selector = false, hidden = false, style } = {})`.
The argument is destructured as an options object; a string argument, which
is what the docstring describes, has none of the three properties and gives
`defaultOptions`.  The sandbox attribute carries three tokens, one more than
the docstring names. -/
def createInstance (ch : PowerCord) (doc : Document) (options : InstanceOptions) :
    InstanceResult :=
  let doc1 := detachPrevious ch doc
  let iframe := newIframe ch doc1.nextId options.hidden
  let doc2 := { doc1 with nextId := doc1.nextId + 1 }
  let ch1 := { ch with iframe := some iframe }
  let ch2 := match options.style with
    | some st => applyInstanceStyle ch1 (some st)
    | none => ch1
  attach ch2 doc2 iframe options.selector

/-- The arrow function installed as `this.iframe.onload`, run against the
channel as it is when the frame has loaded. -/
def onload (ch : PowerCord) : Run Unit :=
  match getHandlers ch.eventHandlers "load" with
  | .undefined => { effects := [], outcome := .ok () }
  | .array _ =>
    -- the array itself is called
    { effects := [], outcome := .error (.typeError "this.eventHandlers.load is not a function") }
  | .inherited =>
    -- does not arise: load is not a key of Object.prototype
    { effects := [], outcome := .error (.typeError "this.eventHandlers.load is not a function") }

/-- Method `emit(eventName, data)`.  The target origin handed to `postMessage`
is `this.domain`, which the constructor has already parsed as a URL. -/
def emit (ch : PowerCord) (doc : Document) (eventName data : JSValue) : Run Unit :=
  match ch.iframe with
  | some iframe =>
    match contentWindow doc iframe with
    | none =>
      { effects := []
        outcome := .error (.typeError "Cannot read properties of null (reading postMessage)") }
    | some w =>
      { effects := [.postMessage w (.object [("eventName", eventName), ("data", data)]) ch.domain]
        outcome := .ok () }
  | none =>
    { effects :=
        if ch.debug then
          [.consoleError
            [.string "The method instanceApp() has to be called before sending messages."]]
        else []
      outcome := .ok () }

/-- Method `hide()`: it throws when no frame was created. -/
def PowerCord.hide (ch : PowerCord) : Except JSError PowerCord :=
  match ch.iframe with
  | none => .error (.typeError "Cannot read properties of undefined (reading style)")
  | some f =>
    .ok { ch with
      iframe := some { f with
        style := f.style ++
          [("zIndex", "0"), ("opacity", "0"), ("pointerEvents", "none"), ("userSelect", "none")] } }

/-- Method `show()`: it throws when no frame was created. -/
def PowerCord.show (ch : PowerCord) : Except JSError PowerCord :=
  match ch.iframe with
  | none => .error (.typeError "Cannot read properties of undefined (reading style)")
  | some f =>
    .ok { ch with
      iframe := some { f with
        style := f.style ++
          [("zIndex", "999"), ("opacity", "1"), ("pointerEvents", "all"), ("userSelect", "all")] } }

/-! ## Concrete objects used in the evaluations below -/

/-- The surroundings of the evaluations below.  On the three addresses that
occur there `urlHost` is the host the platform URL parser returns:
`child.example.com` for `https://child.example.com` and for
`http://child.example.com`, `evil.example.com` for `https://evil.example.com`.
No evaluation below asks for another address.  Host function 13 throws when
it is invoked; every other host function returns. -/
def exampleEnv : Env :=
  { urlHost := fun s =>
      if s = "https://child.example.com" ∨ s = "http://child.example.com" then
        some "child.example.com"
      else if s = "https://evil.example.com" then some "evil.example.com"
      else none
    throws := fun fn _ => if fn = 13 then some (.thrown "subscriber failed") else none }

/-- The channel `new PowerCord("https://child.example.com", \x7b onInitialized \x7d)`
with the callback numbered 1, as the constructor leaves it. -/
def childChannel : PowerCord :=
  { domain := "https://child.example.com"
    debug := false
    eventHandlers := []
    errorHandlers := []
    host := "child.example.com"
    onInitialized := some 1
    iframe := none
    parentElement := none }

/-- A document whose only element is its body, numbered 0. -/
def emptyPage : Document :=
  { body := some 0
    querySelector := fun _ => .ok none
    nextId := 1
    children := []
    connected := [0] }

/-- A document with its body, numbered 0, and an element numbered 1 that was
created and never inserted into the document tree. -/
def pageWithDetachedElement : Document :=
  { body := some 0
    querySelector := fun _ => .ok none
    nextId := 2
    children := []
    connected := [0] }

/-- The channel `childChannel` after `addEventListener("ping", cb7)`. -/
def pingChannel : PowerCord :=
  { childChannel with eventHandlers := [("ping", [7])] }

/-- The channel `childChannel` after `addEventListener("load", cb7)`. -/
def loadChannel : PowerCord :=
  { childChannel with eventHandlers := [("load", [7])] }

/-- The channel `childChannel` after registering, in this order, callback 7,
callback 8 and callback 7 again under `ping`, and callback 7 under `pong`. -/
def busyChannel : PowerCord :=
  { childChannel with eventHandlers := [("ping", [7, 8, 7]), ("pong", [7])] }

/-- The channel `childChannel` after registering under `ping` the callback 13,
which throws, and then callback 8. -/
def throwingChannel : PowerCord :=
  { childChannel with eventHandlers := [("ping", [13, 8])] }

/-- The options `createInstance` gets when it is called without argument. -/
def defaultOptions : InstanceOptions :=
  { selector := none, hidden := false, style := none }

/-- The message `\x7b eventName: "ping", data: 42 \x7d`. -/
def pingMessage : JSValue :=
  .object [("eventName", .string "ping"), ("data", .number 42)]

/-! ## Helper lemmas -/

theorem calls_append (xs ys : List Effect) : calls (xs ++ ys) = calls xs ++ calls ys := by
  induction xs with
  | nil => rfl
  | cons x xs ih => cases x <;> simp [calls, ih]

theorem calls_consoleLog_ite (b : Bool) (args : List JSValue) :
    calls (if b = true then [Effect.consoleLog args] else []) = [] := by
  cases b <;> rfl

/-- The calls of a `forEach` are the handlers it reaches, in order. -/
theorem calls_forEachCall (env : Env) (arg : Arg) (l : List Callback) :
    calls (forEachCall env arg l).effects = (reached env arg l).map (fun cb => (cb, arg)) := by
  induction l with
  | nil => rfl
  | cons h t ih =>
    cases hth : env.throws h arg with
    | none => simp [forEachCall, reached, hth, calls, ih]
    | some e => simp [forEachCall, reached, hth, calls]

/-- When no handler throws, the `forEach` reaches all of them. -/
theorem reached_of_all_return (env : Env) (arg : Arg) (l : List Callback)
    (h : ∀ cb ∈ l, env.throws cb arg = none) : reached env arg l = l := by
  induction l with
  | nil => rfl
  | cons x t ih =>
    have hx : env.throws x arg = none := h x (List.mem_cons_self x t)
    have ht : ∀ cb ∈ t, env.throws cb arg = none :=
      fun cb hcb => h cb (List.mem_cons_of_mem x hcb)
    simp [reached, hx, ih ht]

/-- The handlers reached are an initial segment of the handlers given. -/
theorem reached_segment (env : Env) (arg : Arg) (l : List Callback) :
    reached env arg l <+: l := by
  induction l with
  | nil => exact List.prefix_refl []
  | cons x t ih =>
    cases hx : env.throws x arg with
    | none =>
      simp only [reached, hx]
      exact (List.prefix_cons_inj x).mpr ih
    | some e =>
      simp only [reached, hx]
      exact ⟨t, rfl⟩

/-- Removing a handler that returns commutes with running the `forEach`. -/
theorem reached_filter_of_return (env : Env) (arg : Arg) (cb : Callback) (l : List Callback)
    (hcb : env.throws cb arg = none) :
    reached env arg (l.filter (fun c => c != cb))
      = (reached env arg l).filter (fun c => c != cb) := by
  induction l with
  | nil => rfl
  | cons x t ih =>
    by_cases hx : x = cb
    · subst hx
      simp [reached, hcb, ih]
    · cases hth : env.throws x arg with
      | none => simp [reached, hth, hx, ih]
      | some e => simp [reached, hth, hx]

/-- Whatever the removed handler does, the handlers reached before the removal,
other than the removed one, are reached after it, in the same order. -/
theorem reached_filter_segment (env : Env) (arg : Arg) (cb : Callback) (l : List Callback) :
    (reached env arg l).filter (fun c => c != cb)
      <+: reached env arg (l.filter (fun c => c != cb)) := by
  induction l with
  | nil => exact List.prefix_refl []
  | cons x t ih =>
    by_cases hx : x = cb
    · subst hx
      cases hth : env.throws x arg with
      | none => simpa [reached, hth] using ih
      | some e => simp [reached, hth]
    · cases hth : env.throws x arg with
      | none =>
        simp only [reached, hth]
        simpa [hx, reached, hth] using (List.prefix_cons_inj x).mpr ih
      | some e => simp [reached, hth, hx]

/-- A message whose sender host differs from the channel host, or whose origin
does not parse, invokes nothing. -/
theorem messageListener_other_host (env : Env) (ch : PowerCord) (event : MessageEvent)
    (h : env.urlHost event.origin ≠ some ch.host) :
    calls (messageListener env ch event).effects = [] := by
  unfold messageListener
  cases hu : env.urlHost event.origin with
  | none => rfl
  | some eventHost =>
    have hne : eventHost ≠ ch.host := by
      intro he
      apply h
      rw [hu, he]
    simp only [hne, ne_eq, not_false_eq_true, if_true]
    exact calls_consoleLog_ite _ _

/-- A well-formed event message from the channel host goes to `dispatch`. -/
theorem messageListener_event (env : Env) (ch : PowerCord) (event : MessageEvent)
    (props : List (String × JSValue)) (eventName : String)
    (horigin : env.urlHost event.origin = some ch.host)
    (hdata : event.data = .object props)
    (hname : props.lookup "eventName" = some (.string eventName)) :
    messageListener env ch event = dispatch env ch eventName event.data := by
  unfold messageListener
  simp [horigin, hdata, strictEqString, typeOf, getField, hname]

/-- The calls made by `dispatch` are the registered callbacks that the
`forEach` reaches, in order. -/
theorem calls_dispatch (env : Env) (ch : PowerCord) (eventName : String) (data : JSValue) :
    calls (dispatch env ch eventName data).effects
      = (reached env (.value (payloadData data)) (registered ch eventName)).map
          (fun cb => (cb, Arg.value (payloadData data))) := by
  unfold dispatch getHandlers registered
  cases hl : ch.eventHandlers.lookup eventName with
  | none =>
    by_cases hk : eventName ∈ objectPrototypeKeys <;> simp [hk, calls, reached]
  | some l => simp [calls_forEachCall]

theorem lookup_cons_same (k : String) (v : List Callback)
    (rest : List (String × List Callback)) : List.lookup k ((k, v) :: rest) = some v := by
  simp [List.lookup]

theorem lookup_cons_other (k k0 : String) (v : List Callback)
    (rest : List (String × List Callback)) (hne : k ≠ k0) :
    List.lookup k ((k0, v) :: rest) = List.lookup k rest := by
  have hb : (k == k0) = false := by simp [hne]
  simp [List.lookup, hb]

theorem lookup_setHandlers_self (h : List (String × List Callback)) (k : String)
    (v : List Callback) : (setHandlers h k v).lookup k = some v := by
  induction h with
  | nil => simp [setHandlers, List.lookup]
  | cons p rest ih =>
    obtain ⟨k0, v0⟩ := p
    by_cases hk : k0 = k
    · subst hk
      simp [setHandlers, lookup_cons_same]
    · have hk2 : k ≠ k0 := fun e => hk e.symm
      simp [setHandlers, hk, lookup_cons_other _ _ _ _ hk2, ih]

theorem lookup_setHandlers_other (h : List (String × List Callback)) (k k2 : String)
    (v : List Callback) (hne : k2 ≠ k) : (setHandlers h k v).lookup k2 = h.lookup k2 := by
  induction h with
  | nil => simp [setHandlers, lookup_cons_other _ _ _ _ hne]
  | cons p rest ih =>
    obtain ⟨k0, v0⟩ := p
    by_cases hk : k0 = k
    · subst hk
      simp [setHandlers, lookup_cons_other _ _ _ _ hne]
    · by_cases hk2 : k2 = k0
      · subst hk2
        simp [setHandlers, hk, lookup_cons_same]
      · simp [setHandlers, hk, lookup_cons_other _ _ _ _ hk2, ih]

/-- One successful registration appends the callback to the sequence of its
event name and leaves the rest of the channel as it was. -/
theorem addEventListener_ok (ch ch1 : PowerCord) (eventName : String) (callback : Callback)
    (h : addEventListener ch eventName callback = .ok ch1) :
    ch1.host = ch.host ∧ ch1.onInitialized = ch.onInitialized ∧ ch1.debug = ch.debug ∧
    ch1.domain = ch.domain ∧ ch1.iframe = ch.iframe ∧
    ∀ name, registered ch1 name
      = registered ch name ++ (if eventName = name then [callback] else []) := by
  unfold addEventListener getHandlers at h
  cases hl : ch.eventHandlers.lookup eventName with
  | none =>
    rw [hl] at h
    by_cases hk : eventName ∈ objectPrototypeKeys
    · simp [hk] at h
    · simp only [hk, if_false, Except.ok.injEq] at h
      subst h
      refine ⟨rfl, rfl, rfl, rfl, rfl, ?_⟩
      intro name
      by_cases hn : eventName = name
      · subst hn
        simp [registered, lookup_setHandlers_self, hl]
      · have hn2 : name ≠ eventName := fun e => hn e.symm
        simp [registered, lookup_setHandlers_other _ _ _ _ hn2, hn]
  | some l =>
    rw [hl] at h
    simp only [Except.ok.injEq] at h
    subst h
    refine ⟨rfl, rfl, rfl, rfl, rfl, ?_⟩
    intro name
    by_cases hn : eventName = name
    · subst hn
      simp [registered, lookup_setHandlers_self, hl]
    · have hn2 : name ≠ eventName := fun e => hn e.symm
      simp [registered, lookup_setHandlers_other _ _ _ _ hn2, hn]

/-- After a run of successful registrations the sequence of an event name is
what it was, followed by the callbacks registered under that name, in order. -/
theorem registerAll_ok (regs : List (String × Callback)) (ch0 ch : PowerCord)
    (h : registerAll ch0 regs = .ok ch) :
    ch.host = ch0.host ∧
    ∀ name, registered ch name
      = registered ch0 name ++ (regs.filter (fun r => r.1 = name)).map Prod.snd := by
  induction regs generalizing ch0 with
  | nil =>
    simp only [registerAll, Except.ok.injEq] at h
    subst h
    simp
  | cons r rest ih =>
    obtain ⟨n, cb⟩ := r
    simp only [registerAll] at h
    cases ha : addEventListener ch0 n cb with
    | error e => rw [ha] at h; simp at h
    | ok ch1 =>
      rw [ha] at h
      obtain ⟨hhost, _, _, _, _, hreg⟩ := addEventListener_ok ch0 ch1 n cb ha
      obtain ⟨ih1, ih2⟩ := ih ch1 h
      refine ⟨ih1.trans hhost, ?_⟩
      intro name
      rw [ih2 name, hreg name]
      by_cases hn : n = name
      · simp [hn, List.filter_cons]
      · simp [hn, List.filter_cons]

/-- What the constructor leaves behind when it succeeds. -/
theorem constructor_ok (env : Env) (domain : String) (options : Option Options) (ch : PowerCord)
    (h : (constructor env domain options).outcome = .ok ch) :
    env.urlHost domain = some ch.host ∧ ch.domain = domain ∧ ch.eventHandlers = [] ∧
    ch.iframe = none ∧ ch.parentElement = none ∧ ∃ f, ch.onInitialized = some f := by
  unfold constructor at h
  cases hu : env.urlHost domain with
  | none => simp [hu] at h
  | some host =>
    cases hf : (options.getD { debug := none, onInitialized := none }).onInitialized with
    | none => simp [hu, hf] at h
    | some f =>
      simp only [hu, hf, Except.ok.injEq] at h
      subst h
      exact ⟨rfl, rfl, rfl, rfl, rfl, f, rfl⟩

/-- With a parseable domain and an `onInitialized` function the constructor
succeeds: the registry is empty, no frame is set, the listener is installed. -/
theorem constructor_with_onInitialized (env : Env) (domain host : String) (debug : Option Bool)
    (f : Callback) (h : env.urlHost domain = some host) :
    constructor env domain (some ⟨debug, some f⟩) =
      { effects := [.windowAddEventListener "message"]
        outcome := .ok {
          domain := domain
          debug := debug.getD false
          eventHandlers := []
          errorHandlers := []
          host := host
          onInitialized := some f
          iframe := none
          parentElement := none } } := by
  simp [constructor, h]

/-- Whatever the domain and the platform, the constructor does not succeed
when `onInitialized` is missing, and it never installs the listener then. -/
theorem constructor_without_onInitialized_fails (env : Env) (domain : String)
    (debug : Option Bool) :
    (constructor env domain none).returns = false ∧
    (constructor env domain (some ⟨debug, none⟩)).returns = false ∧
    (constructor env domain none).effects = [] ∧
    (constructor env domain (some ⟨debug, none⟩)).effects = [] := by
  cases hu : env.urlHost domain <;> simp [constructor, Run.returns, hu]

/-- Apart from `null`, every payload from the channel host that is neither the
handshake nor an object with a string `eventName` is ignored: the listener
returns and invokes nothing. -/
theorem messageListener_ignores_malformed (env : Env) (ch : PowerCord) (event : MessageEvent)
    (horigin : env.urlHost event.origin = some ch.host)
    (hhand : event.data ≠ .string "handshake")
    (hnull : event.data ≠ .null)
    (hshape : ∀ props name, event.data = .object props →
      props.lookup "eventName" ≠ some (.string name)) :
    (messageListener env ch event).outcome = .ok () ∧
    calls (messageListener env ch event).effects = [] := by
  unfold messageListener
  rcases hd : event.data with _ | _ | b | n | s | items | props
  · cases hdbg : ch.debug <;> simp [horigin, strictEqString, typeOf, calls]
  · exact absurd hd hnull
  · cases hdbg : ch.debug <;> simp [horigin, strictEqString, typeOf, calls]
  · cases hdbg : ch.debug <;> simp [horigin, strictEqString, typeOf, calls]
  · have hs : s ≠ "handshake" := by
      intro e
      apply hhand
      rw [hd, e]
    cases hdbg : ch.debug <;> simp [horigin, strictEqString, typeOf, calls, hs]
  · cases hdbg : ch.debug <;> simp [horigin, strictEqString, typeOf, getField, calls]
  · have hsh := hshape props
    rw [hd] at hsh
    cases hl : props.lookup "eventName" with
    | none => cases hdbg : ch.debug <;> simp [horigin, strictEqString, typeOf, getField, hl, calls]
    | some v =>
      cases v with
      | string name => exact absurd hl (hsh name rfl)
      | _ => cases hdbg : ch.debug <;> simp [horigin, strictEqString, typeOf, getField, hl, calls]

/-- A `null` payload from the channel host makes the listener throw, whatever
the channel and the surroundings. -/
theorem messageListener_null_throws (env : Env) (ch : PowerCord) (event : MessageEvent)
    (horigin : env.urlHost event.origin = some ch.host) (hdata : event.data = .null) :
    (messageListener env ch event).outcome
      = .error (.typeError "Cannot read properties of null (reading eventName)") := by
  unfold messageListener
  cases hf : ch.onInitialized <;> simp [horigin, hdata, strictEqString, typeOf, getField]

/-- Removing a callback that is not among the subscribers of a registered event
name changes no subscriber sequence. -/
theorem removeEventListener_absent (ch : PowerCord) (eventName : String) (cb : Callback)
    (l : List Callback) (h : ch.eventHandlers.lookup eventName = some l) (hcb : cb ∉ l) :
    ∃ ch1, removeEventListener ch eventName cb = .ok ch1 ∧
      ∀ name, registered ch1 name = registered ch name := by
  have hfilter : l.filter (fun c => c != cb) = l := by
    rw [List.filter_eq_self]
    intro a ha
    have : a ≠ cb := fun e => hcb (e ▸ ha)
    simpa using this
  refine ⟨_, by simp [removeEventListener, getHandlers, h]; rfl, ?_⟩
  intro name
  by_cases hn : name = eventName
  · subst hn
    simp [registered, lookup_setHandlers_self, h, hfilter]
  · simp [registered, lookup_setHandlers_other _ _ _ _ hn]

/-- With no `load` entry in the registry the ready-callback does nothing. -/
theorem onload_without_load_callback (ch : PowerCord)
    (h : ch.eventHandlers.lookup "load" = none) :
    onload ch = { effects := [], outcome := .ok () } := by
  have hk : "load" ∉ objectPrototypeKeys := by decide
  simp [onload, getHandlers, h, hk]

theorem attach_self (ch : PowerCord) (doc : Document) (iframe : IFrame)
    (selector : Option Selector) : (attach ch doc iframe selector).self = ch := by
  unfold attach
  split <;> rfl

theorem attach_children (ch : PowerCord) (doc : Document) (iframe : IFrame)
    (selector : Option Selector) (e : Nat × Nat) (he : e ∈ doc.children) :
    e ∈ (attach ch doc iframe selector).document.children := by
  unfold attach
  split
  · exact he
  · exact he
  · simp [appendChild, he]

/-- The removal branch at the head of `createInstance` is never taken on a
channel whose `parentElement` is unset, and `createInstance` leaves it unset:
the document only ever grows. -/
theorem createInstance_never_detaches (ch : PowerCord) (doc : Document)
    (options : InstanceOptions) (h : ch.parentElement = none) :
    (createInstance ch doc options).self.parentElement = none ∧
    ∀ e, e ∈ doc.children → e ∈ (createInstance ch doc options).document.children := by
  have hdoc : detachPrevious ch doc = doc := by
    unfold detachPrevious
    rw [h]
    cases ch.iframe <;> rfl
  unfold createInstance
  rw [hdoc]
  constructor
  · rw [attach_self]
    cases options.style <;> simp [applyInstanceStyle, h]
  · intro e he
    exact attach_children _ _ _ _ e he

/-! ## The claims -/

/-- C1, as stated, fails: the channel is constructed for
`https://child.example.com`; a message whose origin is
`http://child.example.com`, a different origin (the scheme differs), reaches the
registered `ping` handler, and a handshake from that origin reaches
`onInitialized`. -/
theorem messageListener_ignores_scheme :
    (constructor exampleEnv "https://child.example.com" (some ⟨none, some 1⟩)).outcome
      = .ok childChannel ∧
    addEventListener childChannel "ping" 7 = .ok pingChannel ∧
    pingChannel.domain = "https://child.example.com" ∧
    "http://child.example.com" ≠ pingChannel.domain ∧
    calls (messageListener exampleEnv pingChannel
      ⟨"http://child.example.com", pingMessage⟩).effects = [(7, .value (.number 42))] ∧
    calls (messageListener exampleEnv pingChannel
      ⟨"http://child.example.com", .string "handshake"⟩).effects = [(1, .channel)] := by
  refine ⟨rfl, rfl, rfl, by decide, rfl, rfl⟩

/-- C1, amended: a message whose origin has a host (what the platform returns
for `new URL(origin).host`) different from the host of the configured domain,
or whose origin the platform does not parse as a URL, invokes no registered
handler and does not invoke `onInitialized`, whatever its payload. -/
theorem messageListener_rejects_other_host (env : Env) (ch : PowerCord) (event : MessageEvent)
    (h : env.urlHost event.origin ≠ some ch.host) :
    calls (messageListener env ch event).effects = [] :=
  messageListener_other_host env ch event h

/-- Witness for C1, amended: a handshake from `https://evil.example.com`. -/
theorem messageListener_rejects_other_host_witness :
    exampleEnv.urlHost "https://evil.example.com" ≠ some pingChannel.host ∧
    calls (messageListener exampleEnv pingChannel
      ⟨"https://evil.example.com", .string "handshake"⟩).effects = [] :=
  ⟨by decide, messageListener_rejects_other_host exampleEnv pingChannel
    ⟨"https://evil.example.com", .string "handshake"⟩ (by decide)⟩

/-- C2, as stated, fails: callback 13, which throws, and callback 8 are
registered under `ping` in this order; the message `ping` from the channel host
invokes callback 13 only, and `messageListener` throws what the callback threw:
callback 8, registered for the event, is not called. -/
theorem messageListener_stops_at_throwing_callback :
    registerAll childChannel [("ping", 13), ("ping", 8)] = .ok throwingChannel ∧
    registered throwingChannel "ping" = [13, 8] ∧
    exampleEnv.throws 13 (.value (.number 42)) = some (.thrown "subscriber failed") ∧
    calls (messageListener exampleEnv throwingChannel
      ⟨"https://child.example.com", pingMessage⟩).effects = [(13, .value (.number 42))] ∧
    (messageListener exampleEnv throwingChannel
      ⟨"https://child.example.com", pingMessage⟩).outcome
      = .error (.thrown "subscriber failed") := by
  refine ⟨rfl, rfl, rfl, rfl, rfl⟩

/-- C2, amended: on a channel reached by a run of successful `addEventListener`
calls, a message from the channel host whose payload is an object with a string
`eventName` invokes the callbacks registered under that name (those the channel
already had, then those of the run) in registration order, once per
registration, each with the `data` property of the payload, up to and
including the first one that throws; when none of them throws it invokes all
of them.  A callback that is registered under other names only is not
invoked. -/
theorem messageListener_dispatches_in_registration_order
    (env : Env) (ch0 ch : PowerCord) (regs : List (String × Callback)) (event : MessageEvent)
    (props : List (String × JSValue)) (eventName : String)
    (hreg : registerAll ch0 regs = .ok ch)
    (horigin : env.urlHost event.origin = some ch.host)
    (hdata : event.data = .object props)
    (hname : props.lookup "eventName" = some (.string eventName)) :
    calls (messageListener env ch event).effects
      = (reached env (.value ((props.lookup "data").getD .undefined))
          (registered ch0 eventName
            ++ (regs.filter (fun r => r.1 = eventName)).map Prod.snd)).map
          (fun cb => (cb, Arg.value ((props.lookup "data").getD .undefined))) ∧
    ((∀ cb ∈ registered ch0 eventName
          ++ (regs.filter (fun r => r.1 = eventName)).map Prod.snd,
        env.throws cb (.value ((props.lookup "data").getD .undefined)) = none) →
      calls (messageListener env ch event).effects
        = (registered ch0 eventName
            ++ (regs.filter (fun r => r.1 = eventName)).map Prod.snd).map
            (fun cb => (cb, Arg.value ((props.lookup "data").getD .undefined)))) := by
  have hpay : payloadData event.data = (props.lookup "data").getD .undefined := by
    rw [hdata]
    rfl
  have hcalls : calls (messageListener env ch event).effects
      = (reached env (.value ((props.lookup "data").getD .undefined))
          (registered ch0 eventName
            ++ (regs.filter (fun r => r.1 = eventName)).map Prod.snd)).map
          (fun cb => (cb, Arg.value ((props.lookup "data").getD .undefined))) := by
    rw [messageListener_event env ch event props eventName horigin hdata hname, calls_dispatch,
      (registerAll_ok regs ch0 ch hreg).2 eventName, hpay]
  refine ⟨hcalls, ?_⟩
  intro hall
  rw [hcalls, reached_of_all_return env _ _ hall]

/-- Witness for C2, amended: callbacks 7 and 8 under `ping`, callback 9 under
`pong`, none of which throws, then the message `ping` with data 42. -/
theorem messageListener_dispatches_in_registration_order_witness :
    registerAll childChannel [("ping", 7), ("pong", 9), ("ping", 8)]
      = .ok { childChannel with eventHandlers := [("ping", [7, 8]), ("pong", [9])] } ∧
    exampleEnv.urlHost "https://child.example.com" = some "child.example.com" ∧
    calls (messageListener exampleEnv
      { childChannel with eventHandlers := [("ping", [7, 8]), ("pong", [9])] }
      ⟨"https://child.example.com", pingMessage⟩).effects
      = [(7, .value (.number 42)), (8, .value (.number 42))] :=
  ⟨rfl, rfl, (messageListener_dispatches_in_registration_order exampleEnv childChannel
    { childChannel with eventHandlers := [("ping", [7, 8]), ("pong", [9])] }
    [("ping", 7), ("pong", 9), ("ping", 8)] ⟨"https://child.example.com", pingMessage⟩
    [("eventName", .string "ping"), ("data", .number 42)] "ping" rfl rfl rfl rfl).1⟩

/-- C3, the failing input: a message from the channel host whose payload is
`null` makes `messageListener` throw a `TypeError` (no handler is invoked). -/
theorem messageListener_null_payload_throws :
    exampleEnv.urlHost "https://child.example.com" = some childChannel.host ∧
    (messageListener exampleEnv childChannel ⟨"https://child.example.com", .null⟩).outcome
      = .error (.typeError "Cannot read properties of null (reading eventName)") ∧
    (messageListener exampleEnv childChannel ⟨"https://child.example.com", .null⟩).returns
      = false ∧
    calls (messageListener exampleEnv childChannel
      ⟨"https://child.example.com", .null⟩).effects = [] := by
  refine ⟨rfl, rfl, rfl, rfl⟩

/-- C4, the failing input: on a freshly constructed channel, where nothing was
ever registered under `ping`, `removeEventListener("ping", cb)` throws a
`TypeError`. -/
theorem removeEventListener_unregistered_throws :
    (constructor exampleEnv "https://child.example.com" (some ⟨none, some 1⟩)).outcome
      = .ok childChannel ∧
    removeEventListener childChannel "ping" 7
      = .error (.typeError "Cannot read properties of undefined (reading filter)") := by
  refine ⟨rfl, rfl⟩

/-- C5, the failing input: for the valid absolute URL
`https://child.example.com`, the constructor throws a `TypeError` when called
without options and when called with options that omit `onInitialized`; no
channel is produced and the message listener is not installed. -/
theorem constructor_without_onInitialized_throws :
    exampleEnv.urlHost "https://child.example.com" = some "child.example.com" ∧
    (constructor exampleEnv "https://child.example.com" none).outcome
      = .error (.typeError "Cannot read properties of undefined (reading bind)") ∧
    (constructor exampleEnv "https://child.example.com" (some ⟨some true, none⟩)).outcome
      = .error (.typeError "Cannot read properties of undefined (reading bind)") ∧
    calls (constructor exampleEnv "https://child.example.com" none).effects = [] := by
  refine ⟨rfl, rfl, rfl, rfl⟩

/-- C10: on a channel that has an `onInitialized` callback, a message from the
channel host whose payload is the string `handshake` invokes `onInitialized`
once, with the channel as argument, and invokes nothing else; the listener
returns when the callback returns and throws what the callback throws; `n`
such messages invoke the callback `n` times. -/
theorem handshake_invokes_onInitialized (env : Env) (ch : PowerCord) (f : Callback)
    (event : MessageEvent)
    (hf : ch.onInitialized = some f)
    (horigin : env.urlHost event.origin = some ch.host)
    (hdata : event.data = .string "handshake") :
    (messageListener env ch event).effects = [.call f .channel] ∧
    (env.throws f .channel = none → (messageListener env ch event).outcome = .ok ()) ∧
    (∀ e, env.throws f .channel = some e → (messageListener env ch event).outcome = .error e) ∧
    ∀ n : Nat,
      receiveAll env ch (List.replicate n event) = List.replicate n (.call f .channel) := by
  have h1 : (messageListener env ch event).effects = [.call f .channel] := by
    unfold messageListener
    simp [horigin, hdata, hf, strictEqString]
  have h2 : (messageListener env ch event).outcome
      = (match env.throws f .channel with
        | none => .ok ()
        | some e => .error e) := by
    unfold messageListener
    simp [horigin, hdata, hf, strictEqString]
  refine ⟨h1, ?_, ?_, ?_⟩
  · intro hret
    rw [h2, hret]
  · intro e hthrow
    rw [h2, hthrow]
  · intro n
    induction n with
    | zero => rfl
    | succ k ih => simp [List.replicate_succ, receiveAll, h1, ih]

/-- Witness for C10: two handshakes on the channel built for
`https://child.example.com`. -/
theorem handshake_invokes_onInitialized_witness :
    childChannel.onInitialized = some 1 ∧
    exampleEnv.urlHost "https://child.example.com" = some childChannel.host ∧
    (messageListener exampleEnv childChannel
      ⟨"https://child.example.com", .string "handshake"⟩).outcome = .ok () ∧
    receiveAll exampleEnv childChannel
      [⟨"https://child.example.com", .string "handshake"⟩,
       ⟨"https://child.example.com", .string "handshake"⟩]
      = [.call 1 .channel, .call 1 .channel] :=
  ⟨rfl, rfl,
    (handshake_invokes_onInitialized exampleEnv childChannel 1
      ⟨"https://child.example.com", .string "handshake"⟩ rfl rfl rfl).2.1 rfl,
    (handshake_invokes_onInitialized exampleEnv childChannel 1
      ⟨"https://child.example.com", .string "handshake"⟩ rfl rfl rfl).2.2.2 2⟩

/-- C6, the failing input: a `load` callback is registered, `createInstance()`
produces its handle, and the ready-callback then throws a `TypeError` without
invoking the callback. -/
theorem onload_with_load_callback_throws :
    addEventListener childChannel "load" 7 = .ok loadChannel ∧
    ((createInstance loadChannel emptyPage defaultOptions).outcome.toOption.map IFrame.id)
      = some 1 ∧
    registered (createInstance loadChannel emptyPage defaultOptions).self "load" = [7] ∧
    (onload (createInstance loadChannel emptyPage defaultOptions).self).outcome
      = .error (.typeError "this.eventHandlers.load is not a function") ∧
    calls (onload (createInstance loadChannel emptyPage defaultOptions).self).effects = [] := by
  refine ⟨rfl, rfl, rfl, rfl, rfl⟩

/-- C7, the failing input: two successive `createInstance()` calls on a fresh
channel leave both frames attached to the body; the first one, numbered 1, is
not detached by the second call. -/
theorem createInstance_twice_keeps_first_attached :
    (createInstance childChannel emptyPage defaultOptions).document.children = [(0, 1)] ∧
    ((createInstance
        (createInstance childChannel emptyPage defaultOptions).self
        (createInstance childChannel emptyPage defaultOptions).document
        defaultOptions).outcome.toOption.map IFrame.id) = some 2 ∧
    (createInstance
        (createInstance childChannel emptyPage defaultOptions).self
        (createInstance childChannel emptyPage defaultOptions).document
        defaultOptions).document.children = [(0, 1), (0, 2)] ∧
    (createInstance
        (createInstance childChannel emptyPage defaultOptions).self
        (createInstance childChannel emptyPage defaultOptions).document
        defaultOptions).document.connected = [0, 1, 2] := by
  refine ⟨rfl, rfl, rfl, rfl⟩

/-- C8, as stated, fails: callback 13, which throws, and callback 8 are
registered under `ping`.  Before `removeEventListener("ping", cb13)` a dispatch
of `ping` invokes callback 13 only, so callback 8 is not invoked; after it the
dispatch invokes callback 8: the other subscriber is not invoked the same
number of times as before. -/
theorem removeEventListener_of_throwing_callback :
    throwingChannel.eventHandlers.lookup "ping" = some [13, 8] ∧
    exampleEnv.throws 13 (.value (.number 42)) = some (.thrown "subscriber failed") ∧
    removeEventListener throwingChannel "ping" 13
      = .ok { childChannel with eventHandlers := [("ping", [8])] } ∧
    calls (messageListener exampleEnv throwingChannel
      ⟨"https://child.example.com", pingMessage⟩).effects = [(13, .value (.number 42))] ∧
    calls (messageListener exampleEnv { childChannel with eventHandlers := [("ping", [8])] }
      ⟨"https://child.example.com", pingMessage⟩).effects = [(8, .value (.number 42))] := by
  refine ⟨rfl, rfl, rfl, rfl, rfl⟩

/-- C8, amended: when an event name has a sequence of subscribers,
`removeEventListener(eventName, cb)` succeeds and stores the sequence without
any occurrence of `cb`, the sequences of the other event names being
unchanged.  Afterwards a dispatch of that event never invokes `cb`; the other
subscribers that were invoked before are still invoked, in the same order;
when `cb` returns for the data dispatched, the dispatch invokes exactly the
subscribers it invoked before other than `cb`, as often and in the same order.
A message for another event name is handled exactly as before. -/
theorem removeEventListener_removes_all_occurrences
    (env : Env) (ch : PowerCord) (eventName : String) (cb : Callback) (l : List Callback)
    (h : ch.eventHandlers.lookup eventName = some l) :
    ∃ ch1, removeEventListener ch eventName cb = .ok ch1 ∧
      registered ch1 eventName = (registered ch eventName).filter (fun c => c != cb) ∧
      (∀ other, other ≠ eventName → registered ch1 other = registered ch other) ∧
      (∀ (event : MessageEvent) (props : List (String × JSValue)),
        env.urlHost event.origin = some ch.host → event.data = .object props →
        props.lookup "eventName" = some (.string eventName) →
        (∀ a, (cb, a) ∉ calls (messageListener env ch1 event).effects) ∧
        ((calls (messageListener env ch event).effects).filter (fun c => c.1 != cb)
          <+: calls (messageListener env ch1 event).effects) ∧
        (env.throws cb (.value ((props.lookup "data").getD .undefined)) = none →
          calls (messageListener env ch1 event).effects
            = (calls (messageListener env ch event).effects).filter (fun c => c.1 != cb))) ∧
      (∀ (event : MessageEvent) (props : List (String × JSValue)) (other : String),
        other ≠ eventName → event.data = .object props →
        props.lookup "eventName" = some (.string other) →
        messageListener env ch1 event = messageListener env ch event) := by
  have hrm : removeEventListener ch eventName cb
      = .ok { ch with
          eventHandlers := setHandlers ch.eventHandlers eventName (l.filter (fun c => c != cb)) } := by
    simp [removeEventListener, getHandlers, h]
  have hself : registered
      { ch with
        eventHandlers := setHandlers ch.eventHandlers eventName (l.filter (fun c => c != cb)) }
      eventName = (registered ch eventName).filter (fun c => c != cb) := by
    simp [registered, lookup_setHandlers_self, h]
  refine ⟨_, hrm, hself, ?_, ?_, ?_⟩
  · intro other hne
    simp [registered, lookup_setHandlers_other _ _ _ _ hne]
  · intro event props horigin hdata hname
    have hpay : payloadData event.data = (props.lookup "data").getD .undefined := by
      rw [hdata]
      rfl
    have hafter : calls (messageListener env
        { ch with
          eventHandlers := setHandlers ch.eventHandlers eventName (l.filter (fun c => c != cb)) }
        event).effects
        = (reached env (.value ((props.lookup "data").getD .undefined))
            ((registered ch eventName).filter (fun c => c != cb))).map
            (fun c => (c, Arg.value ((props.lookup "data").getD .undefined))) := by
      have hev1 := messageListener_event env
        { ch with
          eventHandlers := setHandlers ch.eventHandlers eventName (l.filter (fun c => c != cb)) }
        event props eventName horigin hdata hname
      rw [hev1, calls_dispatch, hself, hpay]
    have hbefore : calls (messageListener env ch event).effects
        = (reached env (.value ((props.lookup "data").getD .undefined))
            (registered ch eventName)).map
            (fun c => (c, Arg.value ((props.lookup "data").getD .undefined))) := by
      rw [messageListener_event env ch event props eventName horigin hdata hname,
        calls_dispatch, hpay]
    have hfm : ∀ xs : List Callback,
        (xs.map (fun c => (c, Arg.value ((props.lookup "data").getD .undefined)))).filter
          (fun c => c.1 != cb)
        = (xs.filter (fun c => c != cb)).map
          (fun c => (c, Arg.value ((props.lookup "data").getD .undefined))) := by
      intro xs
      rw [List.filter_map]
      rfl
    refine ⟨?_, ?_, ?_⟩
    · intro a hmem
      rw [hafter] at hmem
      obtain ⟨c, hc, hca⟩ := List.mem_map.mp hmem
      have hc2 := (reached_segment env _ _).subset hc
      have hceq : c = cb := congrArg Prod.fst hca
      subst hceq
      simp at hc2
    · rw [hafter, hbefore, hfm]
      exact (reached_filter_segment env _ cb _).map _
    · intro hret
      rw [hafter, hbefore, hfm, reached_filter_of_return env _ cb _ hret]
  · intro event props other hne hdata hname
    unfold messageListener
    simp only [hdata, strictEqString, typeOf, getField, hname, Option.getD_some]
    have hd : dispatch env
        { ch with
          eventHandlers := setHandlers ch.eventHandlers eventName (l.filter (fun c => c != cb)) }
        other (.object props) = dispatch env ch other (.object props) := by
      simp [dispatch, getHandlers, lookup_setHandlers_other _ _ _ _ hne]
    simp [hd]

/-- Witness for C8, amended: callback 7 is registered twice under `ping`,
between the two callback 8, and once under `pong`; removing it from `ping`
leaves 8. -/
theorem removeEventListener_removes_all_occurrences_witness :
    busyChannel.eventHandlers.lookup "ping" = some [7, 8, 7] ∧
    ∃ ch1, removeEventListener busyChannel "ping" 7 = .ok ch1 ∧
      registered ch1 "ping" = (registered busyChannel "ping").filter (fun c => c != 7) ∧
      (∀ other, other ≠ "ping" → registered ch1 other = registered busyChannel other) ∧
      (∀ (event : MessageEvent) (props : List (String × JSValue)),
        exampleEnv.urlHost event.origin = some busyChannel.host → event.data = .object props →
        props.lookup "eventName" = some (.string "ping") →
        (∀ a, (7, a) ∉ calls (messageListener exampleEnv ch1 event).effects) ∧
        ((calls (messageListener exampleEnv busyChannel event).effects).filter
            (fun c => c.1 != 7)
          <+: calls (messageListener exampleEnv ch1 event).effects) ∧
        (exampleEnv.throws 7 (.value ((props.lookup "data").getD .undefined)) = none →
          calls (messageListener exampleEnv ch1 event).effects
            = (calls (messageListener exampleEnv busyChannel event).effects).filter
                (fun c => c.1 != 7))) ∧
      (∀ (event : MessageEvent) (props : List (String × JSValue)) (other : String),
        other ≠ "ping" → event.data = .object props →
        props.lookup "eventName" = some (.string other) →
        messageListener exampleEnv ch1 event = messageListener exampleEnv busyChannel event) :=
  ⟨rfl, removeEventListener_removes_all_occurrences exampleEnv busyChannel "ping" 7 [7, 8, 7] rfl⟩

/-- C9, as stated, fails: `createInstance` is given an element that is not in
the document tree; it appends the new frame to it and returns the handle, yet
`emit` then throws a `TypeError` and sends nothing, because the frame has no
`contentWindow`. -/
theorem emit_throws_on_detached_frame :
    ((createInstance childChannel pageWithDetachedElement
        ⟨some (.element 1), false, none⟩).outcome.toOption.map IFrame.id) = some 2 ∧
    ((createInstance childChannel pageWithDetachedElement
        ⟨some (.element 1), false, none⟩).self.iframe.map IFrame.id) = some 2 ∧
    (createInstance childChannel pageWithDetachedElement
        ⟨some (.element 1), false, none⟩).document.children = [(1, 2)] ∧
    (emit (createInstance childChannel pageWithDetachedElement
          ⟨some (.element 1), false, none⟩).self
        (createInstance childChannel pageWithDetachedElement
          ⟨some (.element 1), false, none⟩).document
        (.string "ping") (.number 42)).outcome
      = .error (.typeError "Cannot read properties of null (reading postMessage)") ∧
    (emit (createInstance childChannel pageWithDetachedElement
          ⟨some (.element 1), false, none⟩).self
        (createInstance childChannel pageWithDetachedElement
          ⟨some (.element 1), false, none⟩).document
        (.string "ping") (.number 42)).effects = [] := by
  refine ⟨rfl, rfl, rfl, rfl, rfl⟩

/-- C9, amended: while the channel has no frame (`createInstance` was never
called), `emit` returns without throwing and sends nothing, with and without
debug mode, debug mode adding one `console.error` entry; when the channel has
a frame that is in the document tree, `emit` sends exactly one message, to
that frame, with payload `eventName, data` and target origin `this.domain`. -/
theorem emit_sends_only_when_attached (ch : PowerCord) (doc : Document)
    (eventName data : JSValue) :
    (ch.iframe = none →
      (emit ch doc eventName data).outcome = .ok () ∧
      (emit ch doc eventName data).effects.filter Effect.isPost = [] ∧
      (ch.debug = false → (emit ch doc eventName data).effects = []) ∧
      (ch.debug = true → (emit ch doc eventName data).effects
        = [.consoleError
            [.string "The method instanceApp() has to be called before sending messages."]])) ∧
    (∀ iframe, ch.iframe = some iframe → iframe.id ∈ doc.connected →
      (emit ch doc eventName data).outcome = .ok () ∧
      (emit ch doc eventName data).effects
        = [.postMessage iframe.id (.object [("eventName", eventName), ("data", data)])
            ch.domain]) := by
  constructor
  · intro hnone
    unfold emit
    rw [hnone]
    cases hd : ch.debug <;> simp [Effect.isPost]
  · intro iframe hsome hconn
    unfold emit
    rw [hsome]
    simp [contentWindow, hconn]

/-- Witness for C9, amended: the fresh channel sends nothing; after `createInstance()` on
a page with a body, `emit("ping", 42)` posts one message to frame 1. -/
theorem emit_sends_only_when_attached_witness :
    childChannel.iframe = none ∧
    (emit childChannel emptyPage (.string "ping") (.number 42)).effects = [] ∧
    (emit (createInstance childChannel emptyPage defaultOptions).self
        (createInstance childChannel emptyPage defaultOptions).document
        (.string "ping") (.number 42)).effects
      = [.postMessage 1 pingMessage "https://child.example.com"] :=
  ⟨rfl,
    ((emit_sends_only_when_attached childChannel emptyPage (.string "ping") (.number 42)).1
      rfl).2.2.1 rfl,
    ((emit_sends_only_when_attached (createInstance childChannel emptyPage defaultOptions).self
      (createInstance childChannel emptyPage defaultOptions).document
      (.string "ping") (.number 42)).2
      ⟨1, "allow-scripts allow-same-origin allow-presentation", "https://child.example.com",
        instanceStyle false, []⟩ rfl (by decide)).2⟩


end Powercord
